import Mathlib

/-!
Session store and message pipeline of `src/static/app.js`

A shallow embedding of the chat client's module-level state (`messages`,
`isLoading`, `showImageGen`, `showSettings`, `chatHistory`, `currentChatId`)
and of the functions that change it: `newChat`, `saveCurrentChat`, `loadChat`,
`deleteChat` and `sendMessage`.

Conventions of the embedding:

* a JavaScript string is the list of its UTF-16 code units, so that
  `substring(0, 30)` is `List.take 30` and `trim` removes code units;
* calls that only touch the page (`renderMessages`, `updateChatHistoryUI`,
  `alert`, ...) change none of the six variables and are assumed not to throw;
* the storage write of `saveChatHistory` changes none of the six variables, but
  `localStorage.setItem` may throw: inside `sendMessage` the exception reaches
  the `catch` of lines 380-384, so what the write throws there is an argument;
  `deleteChat` has no handler, and only its completed calls are described;
* what the environment returns is an argument: the clock readings of one
  `saveCurrentChat`, the answer of `confirm`, the value of the input box, the
  outcome of `fetch`, the error of the storage write.
-/

namespace OpenChatBox

/-! ## Data model -/

/-- A JavaScript string, as the sequence of its UTF-16 code units. -/
abbrev JSString := List Nat

/-- UTF-16 code units of one code point: itself in the basic plane, a
surrogate pair beyond it. -/
def unitsOfChar (c : Char) : JSString :=
  if c.toNat < 0x10000 then [c.toNat]
  else [0xD800 + (c.toNat - 0x10000) / 0x400, 0xDC00 + (c.toNat - 0x10000) % 0x400]

/-- The JavaScript string that a string literal of the source denotes. -/
def units (s : String) : JSString := s.toList.flatMap unitsOfChar

/-- The literal `'user'`. -/
def roleUser : JSString := units "user"

/-- The literal `'assistant'`. -/
def roleAssistant : JSString := units "assistant"

/-- The literal `'新对话'`, the placeholder title. -/
def defaultTitle : JSString := units "新对话"

/-- The literal `'Error: '` that starts both error templates. -/
def errorPrefix : JSString := units "Error: "

/-- The literal `'Unknown error'`. -/
def unknownError : JSString := units "Unknown error"

/-- One element of `messages`: `{ role, content }`. -/
structure Message where
  role : JSString
  content : JSString
  deriving DecidableEq, Repr

/-- One element of `chatHistory`: `{ id, title, messages, createdAt, updatedAt }`. -/
structure Session where
  id : JSString
  title : JSString
  messages : List Message
  createdAt : JSString
  updatedAt : JSString
  deriving DecidableEq, Repr

/-- The module-level variables of `app.js` that the session store and the
message pipeline read and write. `currentChatId` is `none` for `null`. -/
structure State where
  messages : List Message
  isLoading : Bool
  showImageGen : Bool
  showSettings : Bool
  chatHistory : List Session
  currentChatId : Option JSString
  deriving DecidableEq, Repr

/-- The clock as one `saveCurrentChat` reads it: `Date.now()` (line 213, in
milliseconds) and the two `new Date().toISOString()` (line 218 for `createdAt`,
lines 209 and 219 for `updatedAt`). -/
structure Clock where
  nowMs : Int
  createdIso : JSString
  updatedIso : JSString
  deriving DecidableEq, Repr

/-- The state right after the module is evaluated (lines 2-8), with `history`
being what `localStorage` held under `chatHistory`. -/
def initial (history : List Session) : State :=
  { messages := [], isLoading := false, showImageGen := false, showSettings := false,
    chatHistory := history, currentChatId := none }

/-! ## Strings -/

/-- Decimal digits of `n`, most significant first, on top of `acc`. -/
def decimalCore : Nat → Nat → JSString → JSString
  | 0, _, acc => acc
  | fuel + 1, n, acc =>
    if n / 10 = 0 then (48 + n % 10) :: acc
    else decimalCore fuel (n / 10) ((48 + n % 10) :: acc)

/-- Decimal rendering of a natural number. -/
def decimal (n : Nat) : JSString := decimalCore (n + 1) n []

/-- The id minted at line 213, `Date.now().toString()`: the decimal rendering of
an integer number of milliseconds, with a leading `-` (45) below zero. -/
def mintId (nowMs : Int) : JSString :=
  match nowMs with
  | Int.ofNat n => decimal n
  | Int.negSucc n => 45 :: decimal (n + 1)

/-- The number a sequence of decimal digits denotes, most significant first,
continuing from `start`. -/
def readDigits (start : Nat) (s : JSString) : Nat :=
  s.foldl (fun value d => value * 10 + (d - 48)) start

/-- The integer an id denotes when it is read back as a decimal rendering with
an optional leading `-`. -/
def readId (s : JSString) : Int :=
  match s with
  | 45 :: digits => -((readDigits 0 digits : Nat) : Int)
  | _ => ((readDigits 0 s : Nat) : Int)

/-- Code units that `String.prototype.trim` removes: ECMAScript white space
and line terminators. -/
def isTrimmed (c : Nat) : Bool :=
  c = 0x09 || c = 0x0A || c = 0x0B || c = 0x0C || c = 0x0D || c = 0x20 || c = 0xA0
    || c = 0x1680 || (0x2000 ≤ c && c ≤ 0x200A) || c = 0x2028 || c = 0x2029
    || c = 0x202F || c = 0x205F || c = 0x3000 || c = 0xFEFF

/-- The method `trim` of a string. -/
def trim (s : JSString) : JSString :=
  ((s.dropWhile isTrimmed).reverse.dropWhile isTrimmed).reverse

/-- Truthiness of `currentChatId`, as `if (currentChatId)` tests it: `null` and
the empty string are falsy. -/
def pointerTruthy : Option JSString → Bool
  | some (_ :: _) => true
  | _ => false

/-! ## Session store -/

/-- Lines 136-139 of `newChat`; the rest of the function draws the page. -/
def newChat (st : State) : State :=
  { st with currentChatId := none, messages := [], showImageGen := false }

/-- Line 201: `messages.find(m => m.role === 'user')?.content.substring(0, 30) || '新对话'`. -/
def chatTitle (messages : List Message) : JSString :=
  match messages.find? (fun m => decide (m.role = roleUser)) with
  | some m => if (m.content.take 30).isEmpty then defaultTitle else m.content.take 30
  | none => defaultTitle

/-- The effect of `const chat = list.find(p); if (chat) { ...assign fields... }` on
the list: the first element that satisfies `p` is rewritten where it stands. -/
def updateFirst (p : Session → Bool) (f : Session → Session) : List Session → List Session
  | [] => []
  | c :: cs => if p c then f c :: cs else c :: updateFirst p f cs

/-- Lines 201-221 of `saveCurrentChat`: the update of the current chat or the
creation of a new one, before the cap of lines 223-226. -/
def upsertCurrentChat (clk : Clock) (st : State) : State :=
  if pointerTruthy st.currentChatId then
    { st with
      chatHistory :=
        updateFirst (fun c => decide (some c.id = st.currentChatId))
          (fun c => { c with messages := st.messages, title := chatTitle st.messages,
                             updatedAt := clk.updatedIso })
          st.chatHistory }
  else
    { st with
      currentChatId := some (mintId clk.nowMs)
      chatHistory :=
        { id := mintId clk.nowMs, title := chatTitle st.messages, messages := st.messages,
          createdAt := clk.createdIso, updatedAt := clk.updatedIso } :: st.chatHistory }

/-- Lines 223-226: `if (chatHistory.length > 50) chatHistory = chatHistory.slice(0, 50)`. -/
def capHistory (history : List Session) : List Session :=
  if history.length > 50 then history.take 50 else history

/-- The function `saveCurrentChat` (lines 198-230), as it leaves the variables.
They are final when line 226 is done: the storage write of line 228 changes
none of them, whether it returns or throws (see `commitThrows`). -/
def saveCurrentChat (clk : Clock) (st : State) : State :=
  if st.messages.length = 0 then st
  else
    { upsertCurrentChat clk st with
      chatHistory := capHistory (upsertCurrentChat clk st).chatHistory }

/-- The exception that leaves `saveCurrentChat`, as the `message` of the error:
none when the function returns at line 199; otherwise what
`localStorage.setItem` (line 173, called from line 228) throws, `writeError`. -/
def commitThrows (st : State) (writeError : Option JSString) : Option JSString :=
  if st.messages.length = 0 then none else writeError

/-- The function `loadChat` (lines 232-240). -/
def loadChat (st : State) (chatId : JSString) : State :=
  match st.chatHistory.find? (fun c => decide (c.id = chatId)) with
  | none => st
  | some chat => { st with currentChatId := some chatId, messages := chat.messages }

/-- The function `deleteChat` (lines 242-253); `confirmed` is what `confirm` returned. -/
def deleteChat (st : State) (chatId : JSString) (confirmed : Bool) : State :=
  if confirmed then
    if st.currentChatId = some chatId then
      newChat { st with chatHistory := st.chatHistory.filter (fun c => decide (c.id ≠ chatId)) }
    else
      { st with chatHistory := st.chatHistory.filter (fun c => decide (c.id ≠ chatId)) }
  else st

/-! ## Message pipeline -/

/-- What is posted to `/api/chat`, as far as the state decides it: the field
`messages` of `requestBody`, serialised when `fetch` is called. -/
structure ChatRequest where
  messages : List Message
  deriving DecidableEq, Repr

/-- How lines 325-353 of `sendMessage` end. `threw` is any exception inside the
`try` (a rejected `fetch`, a body that is not JSON, a body without `message`),
with the `message` of the error. `replied` is a parsed answer: its HTTP status,
`data.message.content` (read only when the status is 2xx) and `data.detail`. -/
inductive FetchOutcome where
  | threw (errorMessage : JSString)
  | replied (status : Nat) (content : JSString) (detail : Option JSString)
  deriving DecidableEq, Repr

/-- The property `response.ok`: the status is in the range 200-299. -/
def responseOk (status : Nat) : Bool := 200 ≤ status && status ≤ 299

/-- The expression `data.detail || 'Unknown error'`. -/
def detailOrUnknown : Option JSString → JSString
  | some (c :: cs) => c :: cs
  | _ => unknownError

/-- Lines 309-323 and 334-351 of `sendMessage`: the guard, the push of the user
message, the loading flag, and the request that is sent (`none` if the function
returned at line 313). -/
def sendMessageStart (st : State) (inputValue : JSString) : State × Option ChatRequest :=
  if (trim inputValue).isEmpty || st.isLoading then (st, none)
  else
    ({ st with messages := st.messages ++ [{ role := roleUser, content := trim inputValue }],
               isLoading := true },
     some { messages := st.messages ++ [{ role := roleUser, content := trim inputValue }] })

/-- Lines 353-388 of `sendMessage`: what happens once the `await`s are over,
on the state as it is at that moment, `catch` and `finally` included.
`writeError` is what the storage write of the commit of line 365 throws, if
anything: that exception is caught at line 380 like any other of the `try`,
and one more assistant message is pushed after the reply. -/
def sendMessageFinish (clk : Clock) (st : State) (outcome : FetchOutcome)
    (writeError : Option JSString) : State :=
  match outcome with
  | .threw errorMessage =>
    { st with
      messages := st.messages ++ [{ role := roleAssistant, content := errorPrefix ++ errorMessage }],
      isLoading := false }
  | .replied status content detail =>
    if responseOk status then
      match commitThrows
          { st with messages := st.messages ++ [{ role := roleAssistant, content := content }] }
          writeError with
      | none =>
        { saveCurrentChat clk
            { st with messages := st.messages ++ [{ role := roleAssistant, content := content }] }
          with isLoading := false }
      | some errorMessage =>
        { saveCurrentChat clk
            { st with messages := st.messages ++ [{ role := roleAssistant, content := content }] }
          with
          messages :=
            (saveCurrentChat clk
              { st with
                messages := st.messages ++ [{ role := roleAssistant, content := content }] }).messages
              ++ [{ role := roleAssistant, content := errorPrefix ++ errorMessage }],
          isLoading := false }
    else if status = 429 then
      { st with showSettings := true, isLoading := false }
    else
      { st with
        messages := st.messages ++
          [{ role := roleAssistant, content := errorPrefix ++ detailOrUnknown detail }],
        isLoading := false }

/-- The function `sendMessage` run as one step: nothing else happens between
the request and its outcome. -/
def sendMessage (clk : Clock) (st : State) (inputValue : JSString)
    (outcome : FetchOutcome) (writeError : Option JSString) : State :=
  match sendMessageStart st inputValue with
  | (st1, some _) => sendMessageFinish clk st1 outcome writeError
  | (st1, none) => st1

/-! ## Interleavings -/

/-- What can happen to the state: a call of one of the store's functions, the
synchronous first half of `sendMessage`, or the arrival of a request's outcome. -/
inductive Event where
  | newChat
  | loadChat (chatId : JSString)
  | deleteChat (chatId : JSString) (confirmed : Bool)
  | saveCurrentChat (clk : Clock)
  | sendStart (inputValue : JSString)
  | sendFinish (clk : Clock) (outcome : FetchOutcome) (writeError : Option JSString)
  deriving DecidableEq, Repr

/-- The state after one event. -/
def step (st : State) : Event → State
  | .newChat => newChat st
  | .loadChat chatId => loadChat st chatId
  | .deleteChat chatId confirmed => deleteChat st chatId confirmed
  | .saveCurrentChat clk => saveCurrentChat clk st
  | .sendStart inputValue => (sendMessageStart st inputValue).1
  | .sendFinish clk outcome writeError => sendMessageFinish clk st outcome writeError

/-- The state after a sequence of events, first event first. -/
def run (st : State) (events : List Event) : State := events.foldl step st

/-! ## The invariant of the store -/

/-- The invariant of the store: at most 50 sessions, and a pointer that is
`null` or the id of a session of the collection. -/
def PointerValid (st : State) : Prop :=
  st.chatHistory.length ≤ 50 ∧
  (st.currentChatId = none ∨ ∃ c ∈ st.chatHistory, some c.id = st.currentChatId)

/-! ## Concrete inputs -/

/-- A clock: 2023-11-14T22:13:20Z, the second reading one millisecond later. -/
def sampleClock : Clock :=
  { nowMs := 1700000000000,
    createdIso := units "2023-11-14T22:13:20.000Z",
    updatedIso := units "2023-11-14T22:13:20.001Z" }

/-- The user message `hi`. -/
def hiMessage : Message := { role := roleUser, content := units "hi" }

/-- A stored chat created in September 2020. -/
def olderChat : Session :=
  { id := units "1600000000000", title := units "weather",
    messages := [{ role := roleUser, content := units "weather" },
                 { role := roleAssistant, content := units "sunny" }],
    createdAt := units "2020-09-13T12:26:40.000Z",
    updatedAt := units "2020-09-13T12:26:41.000Z" }

/-- A stored chat created at the very millisecond `sampleClock` reads. -/
def sameMsChat : Session :=
  { id := units "1700000000000", title := units "first",
    messages := [{ role := roleUser, content := units "first" },
                 { role := roleAssistant, content := units "reply" }],
    createdAt := units "2023-11-14T22:13:20.000Z",
    updatedAt := units "2023-11-14T22:13:20.000Z" }

/-- A new chat holding `hi`, while the collection already has a chat minted in
the same millisecond. -/
def collisionState : State :=
  { initial [sameMsChat] with messages := [hiMessage] }

/-- The older of two stored chats is open and has received `hi`. -/
def secondOpenState : State :=
  { initial [sameMsChat, olderChat] with
    messages := olderChat.messages ++ [hiMessage],
    currentChatId := some olderChat.id }

/-- A stored chat numbered `n`, minted `n` milliseconds after `olderChat`. -/
def numberedChat (n : Nat) : Session :=
  { id := mintId (1600000000001 + n), title := units "note",
    messages := [{ role := roleUser, content := units "note" },
                 { role := roleAssistant, content := units "noted" }],
    createdAt := units "2020-09-13T12:26:40.000Z",
    updatedAt := units "2020-09-13T12:26:41.000Z" }

/-- A stored collection of 51 chats with pairwise distinct ids. -/
def overfullHistory : List Session := (List.range 51).map numberedChat

/-- The last of the 51 chats of `overfullHistory` has been opened. -/
def lastOfOverfullOpen : State := loadChat (initial overfullHistory) (numberedChat 50).id

/-- A transient list whose first user message has empty content. -/
def emptyUserState : State :=
  { initial [] with
    messages := [{ role := roleUser, content := units "" },
                 { role := roleAssistant, content := units "Hello! How can I help?" }] }

/-- A reply of the backend with status 200 and content `hello`. -/
def helloReply : FetchOutcome := .replied 200 (units "hello") none

/-- The `message` of the error a storage write throws when the quota of
`localStorage` is used up. -/
def storageFull : JSString := units "The quota has been exceeded."

/-- The older chat is opened, `hi` is sent, the other chat is opened while the
request is in flight, and then the reply arrives. -/
def raceEvents : List Event :=
  [.loadChat olderChat.id, .sendStart (units "hi"), .loadChat sameMsChat.id,
   .sendFinish sampleClock helloReply none]

/-! ## Lemmas on the decimal rendering -/

theorem readDigits_decimalCore (fuel n : Nat) (acc : JSString) (hfuel : n < fuel) :
    readDigits 0 (decimalCore fuel n acc) = readDigits n acc := by
  induction fuel generalizing n acc with
  | zero => omega
  | succ k ih =>
    unfold decimalCore
    split
    · rename_i hsmall
      have hn : n % 10 = n := Nat.mod_eq_of_lt (by omega)
      simp [readDigits, hn]
    · rename_i hbig
      have hlt : n / 10 < k := by omega
      rw [ih (n / 10) _ hlt]
      have hn : n / 10 * 10 + n % 10 = n := by omega
      simp [readDigits, hn]

theorem readDigits_decimal (n : Nat) : readDigits 0 (decimal n) = n := by
  unfold decimal
  rw [readDigits_decimalCore (n + 1) n [] (Nat.lt_succ_self n)]
  rfl

theorem decimalCore_ge (fuel n : Nat) (acc : JSString) (hacc : ∀ d ∈ acc, 48 ≤ d) :
    ∀ d ∈ decimalCore fuel n acc, 48 ≤ d := by
  induction fuel generalizing n acc with
  | zero => exact hacc
  | succ k ih =>
    have hcons : ∀ d ∈ (48 + n % 10) :: acc, 48 ≤ d := by
      intro d hd
      rcases List.mem_cons.mp hd with h | h
      · omega
      · exact hacc d h
    unfold decimalCore
    split
    · exact hcons
    · exact ih (n / 10) _ hcons

theorem readId_decimal (n : Nat) : readId (decimal n) = (n : Int) := by
  have hge : ∀ d ∈ decimal n, 48 ≤ d := decimalCore_ge (n + 1) n [] (by simp)
  unfold readId
  split
  · rename_i digits heq
    have h45 := hge 45 (by rw [heq]; exact List.mem_cons_self _ _)
    omega
  · rw [readDigits_decimal]

/-- Reading back a minted id gives the clock reading it was minted from. -/
theorem readId_mintId (t : Int) : readId (mintId t) = t := by
  cases t with
  | ofNat n => exact readId_decimal n
  | negSucc n =>
    show readId (45 :: decimal (n + 1)) = Int.negSucc n
    simp only [readId, readDigits_decimal]
    rfl

/-- Two clock readings with the same id are the same reading. -/
theorem mintId_injective (t u : Int) (h : mintId t = mintId u) : t = u := by
  rw [← readId_mintId t, ← readId_mintId u, h]

/-! ## Lemmas on the list operations -/

theorem capHistory_eq_take (history : List Session) : capHistory history = history.take 50 := by
  unfold capHistory
  split
  · rfl
  · exact (List.take_of_length_le (by omega)).symm

theorem capHistory_length_le (history : List Session) : (capHistory history).length ≤ 50 := by
  rw [capHistory_eq_take, List.length_take]
  exact Nat.min_le_left _ _

theorem updateFirst_length (p : Session → Bool) (f : Session → Session) (l : List Session) :
    (updateFirst p f l).length = l.length := by
  induction l with
  | nil => rfl
  | cons c cs ih =>
    unfold updateFirst
    split <;> simp [ih]

theorem updateFirst_map_id (p : Session → Bool) (f : Session → Session)
    (hf : ∀ c, (f c).id = c.id) (l : List Session) :
    (updateFirst p f l).map (fun c => c.id) = l.map (fun c => c.id) := by
  induction l with
  | nil => rfl
  | cons c cs ih =>
    unfold updateFirst
    split <;> simp [ih, hf]

theorem updateFirst_take (p : Session → Bool) (f : Session → Session) (n : Nat)
    (l : List Session) : (updateFirst p f l).take n = updateFirst p f (l.take n) := by
  induction l generalizing n with
  | nil => simp [updateFirst]
  | cons c cs ih =>
    cases n with
    | zero => simp [updateFirst]
    | succ k =>
      by_cases hp : p c = true
      · simp [updateFirst, hp]
      · simp [updateFirst, hp, ih]

theorem updateFirst_mem_of_exists (p : Session → Bool) (f : Session → Session)
    (l : List Session) (h : ∃ c ∈ l, p c = true) :
    ∃ c ∈ l, p c = true ∧ f c ∈ updateFirst p f l := by
  induction l with
  | nil => simp at h
  | cons c cs ih =>
    by_cases hp : p c = true
    · exact ⟨c, List.mem_cons_self _ _, hp, by simp [updateFirst, hp]⟩
    · have h2 : ∃ d ∈ cs, p d = true := by
        obtain ⟨d, hd, hpd⟩ := h
        rcases List.mem_cons.mp hd with rfl | hd
        · exact absurd hpd hp
        · exact ⟨d, hd, hpd⟩
      obtain ⟨d, hd, hpd, hmem⟩ := ih h2
      exact ⟨d, List.mem_cons_of_mem _ hd, hpd, by simp [updateFirst, hp, hmem]⟩

theorem mem_updateFirst (p : Session → Bool) (f : Session → Session) (l : List Session)
    (x : Session) (hx : x ∈ updateFirst p f l) :
    x ∈ l ∨ ∃ c ∈ l, p c = true ∧ x = f c := by
  induction l with
  | nil => simp [updateFirst] at hx
  | cons c cs ih =>
    by_cases hp : p c = true
    · have hcons : updateFirst p f (c :: cs) = f c :: cs := by simp [updateFirst, hp]
      rw [hcons] at hx
      rcases List.mem_cons.mp hx with h | h
      · exact Or.inr ⟨c, List.mem_cons_self _ _, hp, h⟩
      · exact Or.inl (List.mem_cons_of_mem _ h)
    · have hcons : updateFirst p f (c :: cs) = c :: updateFirst p f cs := by
        simp [updateFirst, hp]
      rw [hcons] at hx
      rcases List.mem_cons.mp hx with h | h
      · exact Or.inl (h ▸ List.mem_cons_self _ _)
      · rcases ih h with h2 | ⟨d, hd, hpd, hxd⟩
        · exact Or.inl (List.mem_cons_of_mem _ h2)
        · exact Or.inr ⟨d, List.mem_cons_of_mem _ hd, hpd, hxd⟩

theorem saveCurrentChat_chatHistory (clk : Clock) (st : State) (hmsg : st.messages ≠ []) :
    (saveCurrentChat clk st).chatHistory = (upsertCurrentChat clk st).chatHistory.take 50 := by
  have hlen : st.messages.length ≠ 0 := by
    intro h
    exact hmsg (List.length_eq_zero.mp h)
  simp [saveCurrentChat, hlen, capHistory_eq_take]

theorem saveCurrentChat_currentChatId (clk : Clock) (st : State) (hmsg : st.messages ≠ []) :
    (saveCurrentChat clk st).currentChatId = (upsertCurrentChat clk st).currentChatId := by
  have hlen : st.messages.length ≠ 0 := by
    intro h
    exact hmsg (List.length_eq_zero.mp h)
  simp [saveCurrentChat, hlen]

theorem saveCurrentChat_messages (clk : Clock) (st : State) :
    (saveCurrentChat clk st).messages = st.messages := by
  unfold saveCurrentChat upsertCurrentChat
  split
  · rfl
  · split <;> rfl

/-! ## Lemmas on `saveCurrentChat` and `sendMessage` -/

theorem upsertCurrentChat_of_falsy (clk : Clock) (st : State)
    (hp : pointerTruthy st.currentChatId = false) :
    upsertCurrentChat clk st =
      { st with
        currentChatId := some (mintId clk.nowMs)
        chatHistory :=
          { id := mintId clk.nowMs, title := chatTitle st.messages, messages := st.messages,
            createdAt := clk.createdIso, updatedAt := clk.updatedIso } :: st.chatHistory } := by
  simp [upsertCurrentChat, hp]

theorem upsertCurrentChat_of_truthy (clk : Clock) (st : State)
    (hp : pointerTruthy st.currentChatId = true) :
    upsertCurrentChat clk st =
      { st with
        chatHistory :=
          updateFirst (fun c => decide (some c.id = st.currentChatId))
            (fun c => { c with messages := st.messages, title := chatTitle st.messages,
                               updatedAt := clk.updatedIso })
            st.chatHistory } := by
  simp [upsertCurrentChat, hp]

/-- When the pointer is falsy, or names one of the first 50 sessions, the
collection after `saveCurrentChat` holds the session the pointer then names,
with the saved messages, the derived title and the new `updatedAt`. -/
theorem saveCurrentChat_finds (clk : Clock) (st : State) (hmsg : st.messages ≠ [])
    (hptr : pointerTruthy st.currentChatId = false ∨
      ∃ c ∈ st.chatHistory.take 50, some c.id = st.currentChatId) :
    ∃ c ∈ (saveCurrentChat clk st).chatHistory,
      some c.id = (saveCurrentChat clk st).currentChatId ∧ c.messages = st.messages ∧
      c.title = chatTitle st.messages ∧ c.updatedAt = clk.updatedIso := by
  have hid := saveCurrentChat_currentChatId clk st hmsg
  have hhist := saveCurrentChat_chatHistory clk st hmsg
  by_cases hp : pointerTruthy st.currentChatId = true
  · have hfalse : ¬ pointerTruthy st.currentChatId = false := by simp [hp]
    obtain ⟨c, hc, hcid⟩ := hptr.resolve_left hfalse
    rw [upsertCurrentChat_of_truthy clk st hp] at hid hhist
    simp only at hid hhist
    rw [updateFirst_take] at hhist
    obtain ⟨d, -, hpd, hmem⟩ := updateFirst_mem_of_exists
      (fun c => decide (some c.id = st.currentChatId))
      (fun c => { c with messages := st.messages, title := chatTitle st.messages,
                         updatedAt := clk.updatedIso })
      (st.chatHistory.take 50) ⟨c, hc, decide_eq_true hcid⟩
    refine ⟨_, hhist ▸ hmem, ?_, rfl, rfl, rfl⟩
    rw [hid]
    exact of_decide_eq_true hpd
  · have hp2 : pointerTruthy st.currentChatId = false := by simpa using hp
    rw [upsertCurrentChat_of_falsy clk st hp2] at hid hhist
    simp only at hid hhist
    refine ⟨{ id := mintId clk.nowMs, title := chatTitle st.messages, messages := st.messages,
              createdAt := clk.createdIso, updatedAt := clk.updatedIso }, ?_, ?_, rfl, rfl, rfl⟩
    · rw [hhist]
      exact List.mem_cons_self _ _
    · rw [hid]

theorem sendMessageStart_accepted (st : State) (inputValue : JSString)
    (hinput : trim inputValue ≠ []) (hidle : st.isLoading = false) :
    sendMessageStart st inputValue =
      ({ st with messages := st.messages ++ [{ role := roleUser, content := trim inputValue }],
                 isLoading := true },
       some { messages := st.messages ++ [{ role := roleUser, content := trim inputValue }] }) := by
  simp [sendMessageStart, hinput, hidle]

theorem sendMessageStart_rejected (st : State) (inputValue : JSString)
    (h : ¬ (trim inputValue ≠ [] ∧ st.isLoading = false)) :
    sendMessageStart st inputValue = (st, none) := by
  unfold sendMessageStart
  split
  · rfl
  · rename_i hc
    exfalso
    apply h
    simp only [Bool.or_eq_true, List.isEmpty_iff, not_or] at hc
    exact ⟨hc.1, by simpa using hc.2⟩

theorem sendMessage_accepted (clk : Clock) (st : State) (inputValue : JSString)
    (outcome : FetchOutcome) (writeError : Option JSString)
    (hinput : trim inputValue ≠ []) (hidle : st.isLoading = false) :
    sendMessage clk st inputValue outcome writeError =
      sendMessageFinish clk
        { st with messages := st.messages ++ [{ role := roleUser, content := trim inputValue }],
                  isLoading := true } outcome writeError := by
  simp [sendMessage, sendMessageStart_accepted st inputValue hinput hidle]

theorem commitThrows_of_ne_nil (st : State) (writeError : Option JSString)
    (hmsg : st.messages ≠ []) : commitThrows st writeError = writeError := by
  have hlen : st.messages.length ≠ 0 := by
    intro h
    exact hmsg (List.length_eq_zero.mp h)
  simp [commitThrows, hlen]

/-- The 2xx branch of `sendMessageFinish`: the commit runs on the list with the
reply; a throwing storage write adds one error message after it. -/
theorem sendMessageFinish_ok (clk : Clock) (st : State) (status : Nat) (content : JSString)
    (detail : Option JSString) (writeError : Option JSString)
    (hok : responseOk status = true) :
    sendMessageFinish clk st (.replied status content detail) writeError =
      { saveCurrentChat clk
          { st with messages := st.messages ++ [{ role := roleAssistant, content := content }] }
        with
        messages := (st.messages ++ [{ role := roleAssistant, content := content }]) ++
          writeError.toList.map (fun e => { role := roleAssistant, content := errorPrefix ++ e }),
        isLoading := false } := by
  have hne : (st.messages ++ [({ role := roleAssistant, content := content } : Message)]) ≠ [] := by
    simp
  have hthrow := commitThrows_of_ne_nil
    { st with messages := st.messages ++ [{ role := roleAssistant, content := content }] }
    writeError hne
  have hmsgs : (saveCurrentChat clk
      { st with messages := st.messages ++ [{ role := roleAssistant, content := content }] }).messages
      = st.messages ++ [{ role := roleAssistant, content := content }] :=
    saveCurrentChat_messages clk _
  cases writeError with
  | none =>
    simp only [sendMessageFinish, hok, if_true, hthrow, Option.toList, List.map_nil,
      List.append_nil]
    generalize saveCurrentChat clk _ = saved at hmsgs ⊢
    rw [← hmsgs]
  | some e =>
    simp only [sendMessageFinish, hok, if_true, hthrow, Option.toList, List.map_cons,
      List.map_nil]
    generalize saveCurrentChat clk _ = saved at hmsgs ⊢
    rw [hmsgs]

theorem chatTitle_of_first_user (pre post : List Message) (m : Message)
    (hpre : ∀ x ∈ pre, x.role ≠ roleUser) (hm : m.role = roleUser) :
    chatTitle (pre ++ m :: post) =
      if m.content.take 30 = [] then defaultTitle else m.content.take 30 := by
  have hfind : (pre ++ m :: post).find? (fun x => decide (x.role = roleUser)) = some m := by
    induction pre with
    | nil => simp [hm]
    | cons x xs ih =>
      have hx : x.role ≠ roleUser := hpre x (List.mem_cons_self _ _)
      simp only [List.cons_append, List.find?_cons, hx, decide_False]
      exact ih (fun y hy => hpre y (List.mem_cons_of_mem _ hy))
  simp only [chatTitle, hfind, List.isEmpty_iff]

theorem chatTitle_of_no_user (messages : List Message)
    (h : ∀ x ∈ messages, x.role ≠ roleUser) : chatTitle messages = defaultTitle := by
  have hfind : messages.find? (fun x => decide (x.role = roleUser)) = none := by
    rw [List.find?_eq_none]
    intro x hx
    simpa using h x hx
  simp only [chatTitle, hfind]

/-! ## The cap of 50 entries -/

/-- C1: after `saveCurrentChat` on a non-empty message list, whatever the
collection and the pointer, the collection has at most 50 entries, and it is
the first 50 entries of the collection as it stood after the update or the
insertion: only a tail is dropped. -/
theorem saveCurrentChat_cap (clk : Clock) (st : State) (hmsg : st.messages ≠ []) :
    (saveCurrentChat clk st).chatHistory.length ≤ 50 ∧
    (saveCurrentChat clk st).chatHistory = (upsertCurrentChat clk st).chatHistory.take 50 ∧
    ∃ dropped, (upsertCurrentChat clk st).chatHistory =
      (saveCurrentChat clk st).chatHistory ++ dropped := by
  have h := saveCurrentChat_chatHistory clk st hmsg
  refine ⟨?_, h, (upsertCurrentChat clk st).chatHistory.drop 50, ?_⟩
  · rw [h, List.length_take]
    exact Nat.min_le_left _ _
  · rw [h, List.take_append_drop]

/-- C1, at a concrete input: a new chat holding `hi` is saved into a
collection of 51 chats. -/
theorem saveCurrentChat_cap_witness :
    (saveCurrentChat sampleClock
      { initial overfullHistory with messages := [hiMessage] }).chatHistory.length ≤ 50 :=
  (saveCurrentChat_cap sampleClock { initial overfullHistory with messages := [hiMessage] }
    (by decide)).1

/-! ## Fresh ids -/

/-- C2 (as stated, refuted): with the pointer `null`, a non-empty message list
and a collection that already holds a chat minted in the millisecond the clock
reads, `saveCurrentChat` gives the new session the id of that chat, and the ids
of the collection are no longer pairwise distinct. -/
theorem saveCurrentChat_id_collision :
    collisionState.currentChatId = none ∧ collisionState.messages ≠ [] ∧
    (collisionState.chatHistory.map (fun c => c.id)).Nodup ∧
    (∃ c ∈ collisionState.chatHistory,
      some c.id = (saveCurrentChat sampleClock collisionState).currentChatId) ∧
    ¬ ((saveCurrentChat sampleClock collisionState).chatHistory.map (fun c => c.id)).Nodup := by
  decide

/-- C2 (amended): with the pointer `null` and a non-empty message list,
`saveCurrentChat` makes the pointer the decimal rendering of `Date.now()` and
puts a session with that id first, in front of the first 49 old sessions. A
stored session whose id was minted at clock reading `t` has the new id exactly
when `t` is the present reading. Hence, when every stored id was minted at
another reading or is no rendering of a reading at all, the new id differs
from every stored id, and pairwise distinct ids stay pairwise distinct. -/
theorem saveCurrentChat_fresh_id (clk : Clock) (st : State)
    (hnull : st.currentChatId = none) (hmsg : st.messages ≠ []) :
    (saveCurrentChat clk st).currentChatId = some (mintId clk.nowMs) ∧
    (saveCurrentChat clk st).chatHistory =
      { id := mintId clk.nowMs, title := chatTitle st.messages, messages := st.messages,
        createdAt := clk.createdIso, updatedAt := clk.updatedIso } :: st.chatHistory.take 49 ∧
    (∀ c ∈ st.chatHistory, ∀ t, c.id = mintId t →
      (some c.id = (saveCurrentChat clk st).currentChatId ↔ t = clk.nowMs)) ∧
    ((∀ c ∈ st.chatHistory,
        (∃ t, t ≠ clk.nowMs ∧ c.id = mintId t) ∨ (∀ t, c.id ≠ mintId t)) →
      (∀ c ∈ st.chatHistory, some c.id ≠ (saveCurrentChat clk st).currentChatId) ∧
      ((st.chatHistory.map (fun c => c.id)).Nodup →
        ((saveCurrentChat clk st).chatHistory.map (fun c => c.id)).Nodup)) := by
  have hp : pointerTruthy st.currentChatId = false := by
    rw [hnull]
    rfl
  have hup := upsertCurrentChat_of_falsy clk st hp
  have hid := saveCurrentChat_currentChatId clk st hmsg
  have hhist := saveCurrentChat_chatHistory clk st hmsg
  rw [hup] at hid hhist
  simp only at hid hhist
  have hhist2 : (saveCurrentChat clk st).chatHistory =
      { id := mintId clk.nowMs, title := chatTitle st.messages, messages := st.messages,
        createdAt := clk.createdIso, updatedAt := clk.updatedIso } :: st.chatHistory.take 49 := by
    rw [hhist]
    rfl
  refine ⟨hid, hhist2, ?_, ?_⟩
  · intro c _ t hct
    rw [hid, hct]
    constructor
    · intro heq
      exact mintId_injective t clk.nowMs (Option.some.inj heq)
    · intro heq
      rw [heq]
  · intro hother
    have hfresh : ∀ c ∈ st.chatHistory, c.id ≠ mintId clk.nowMs := by
      intro c hc heq
      rcases hother c hc with ⟨t, ht, hct⟩ | hnever
      · exact ht (mintId_injective t clk.nowMs (hct ▸ heq))
      · exact hnever clk.nowMs heq
    constructor
    · intro c hc heq
      rw [hid] at heq
      exact hfresh c hc (Option.some.inj heq)
    · intro hnd
      rw [hhist2, List.map_cons, List.nodup_cons]
      constructor
      · intro hmem
        obtain ⟨c, hc, hcid⟩ := List.mem_map.mp hmem
        exact hfresh c (List.mem_of_mem_take hc) hcid
      · rw [List.map_take]
        exact List.Nodup.sublist (List.take_sublist _ _) hnd

/-- C2 (amended), at a concrete input: a new chat holding `hi` is saved into a
collection whose only chat was minted in 2020. -/
theorem saveCurrentChat_fresh_id_witness :
    (saveCurrentChat sampleClock { initial [olderChat] with messages := [hiMessage] }).currentChatId
        = some (units "1700000000000") ∧
    ((saveCurrentChat sampleClock
        { initial [olderChat] with messages := [hiMessage] }).chatHistory.map (fun c => c.id)).Nodup :=
  have h := saveCurrentChat_fresh_id sampleClock { initial [olderChat] with messages := [hiMessage] }
    rfl (by decide)
  ⟨h.1,
   (h.2.2.2 (fun c hc => Or.inl ⟨1600000000000, by decide, by
      rw [List.mem_singleton.mp hc]
      decide⟩)).2 (by decide)⟩

/-! ## Order of the collection -/

/-- C3 (as stated, refuted): the second of two stored chats is open; saving it
rewrites it where it stands, and the first element of the collection is still
the other chat. -/
theorem saveCurrentChat_update_stays_in_place :
    secondOpenState.messages ≠ [] ∧
    (∃ c ∈ secondOpenState.chatHistory, some c.id = secondOpenState.currentChatId) ∧
    (saveCurrentChat sampleClock secondOpenState).chatHistory.head? = some sameMsChat ∧
    some sameMsChat.id ≠ (saveCurrentChat sampleClock secondOpenState).currentChatId ∧
    (saveCurrentChat sampleClock secondOpenState).chatHistory.map (fun c => c.messages) =
      [sameMsChat.messages, secondOpenState.messages] := by
  decide

/-- C3 (amended): on a non-empty message list, a `saveCurrentChat` that creates
a session (falsy pointer) puts it first, in front of the first 49 entries of
the old collection; a `saveCurrentChat` with a truthy pointer keeps the pointer
and the order of the collection (the ids, position by position, are those of
the first 50 old entries) and changes a session only by rewriting the one the
pointer names. What the cap drops is therefore decided by position alone. -/
theorem saveCurrentChat_position (clk : Clock) (st : State) (hmsg : st.messages ≠ []) :
    (pointerTruthy st.currentChatId = false →
      (saveCurrentChat clk st).currentChatId = some (mintId clk.nowMs) ∧
      (saveCurrentChat clk st).chatHistory =
        { id := mintId clk.nowMs, title := chatTitle st.messages, messages := st.messages,
          createdAt := clk.createdIso, updatedAt := clk.updatedIso } :: st.chatHistory.take 49) ∧
    (pointerTruthy st.currentChatId = true →
      (saveCurrentChat clk st).currentChatId = st.currentChatId ∧
      (saveCurrentChat clk st).chatHistory.map (fun c => c.id) =
        (st.chatHistory.take 50).map (fun c => c.id) ∧
      ∀ c ∈ (saveCurrentChat clk st).chatHistory,
        c ∈ st.chatHistory ∨ (some c.id = st.currentChatId ∧ c.messages = st.messages)) := by
  have hid := saveCurrentChat_currentChatId clk st hmsg
  have hhist := saveCurrentChat_chatHistory clk st hmsg
  constructor
  · intro hp
    have hup := upsertCurrentChat_of_falsy clk st hp
    rw [hup] at hid hhist
    exact ⟨hid, by rw [hhist]; rfl⟩
  · intro hp
    have hup := upsertCurrentChat_of_truthy clk st hp
    rw [hup] at hid hhist
    simp only at hid hhist
    refine ⟨hid, ?_, ?_⟩
    · rw [hhist, updateFirst_take, updateFirst_map_id]
      intro c
      rfl
    · intro c hc
      rw [hhist] at hc
      rcases mem_updateFirst _ _ _ c (List.mem_of_mem_take hc) with h | ⟨d, hd, hpd, hcd⟩
      · exact Or.inl h
      · right
        subst hcd
        exact ⟨of_decide_eq_true hpd, rfl⟩

/-- C3 (amended), at a concrete input: the open chat is the second of two. -/
theorem saveCurrentChat_position_witness :
    (saveCurrentChat sampleClock secondOpenState).chatHistory.map (fun c => c.id) =
      [units "1700000000000", units "1600000000000"] :=
  ((saveCurrentChat_position sampleClock secondOpenState (by decide)).2 (by decide)).2.1

/-! ## A successful exchange -/

/-- C4 (as stated, refuted): the collection holds 51 chats and the last one is
open; a send is accepted and answered with status 200, and afterwards no
session of the collection has the id the pointer names: the rewritten chat
stood at position 51 and the cap dropped it. And when the storage write of the
commit throws, a send from a new chat ends with two assistant messages, the
reply and the error of the write. -/
theorem sendMessage_success_refuted :
    lastOfOverfullOpen.isLoading = false ∧ trim (units "hi") ≠ [] ∧
    lastOfOverfullOpen.currentChatId = some (numberedChat 50).id ∧
    (sendMessage sampleClock lastOfOverfullOpen (units "hi") helloReply none).currentChatId
      = some (numberedChat 50).id ∧
    (¬ ∃ c ∈ (sendMessage sampleClock lastOfOverfullOpen (units "hi") helloReply none).chatHistory,
      some c.id =
        (sendMessage sampleClock lastOfOverfullOpen (units "hi") helloReply none).currentChatId) ∧
    (sendMessage sampleClock (initial []) (units "hi") helloReply (some storageFull)).messages =
      [hiMessage, { role := roleAssistant, content := units "hello" },
       { role := roleAssistant, content := errorPrefix ++ storageFull }] := by
  decide

/-- C4 (amended): when a send is accepted (`isLoading` false, input not blank),
the backend answers 2xx with content `content`, and the pointer is falsy or
names one of the first 50 sessions of the collection, then after the exchange
run as one step the message list is the old one, the user message and one
assistant message with that content, followed by one error message exactly
when the storage write of the commit throws; the collection holds a session
whose id the pointer names, whose messages are the list up to the reply and
whose `updatedAt` is the time of the commit; and `isLoading` is false. When
the write does not throw, this is the claim: one assistant message, and the
session holds the whole message list. -/
theorem sendMessage_success (clk : Clock) (st : State) (inputValue : JSString)
    (status : Nat) (content : JSString) (detail : Option JSString)
    (writeError : Option JSString)
    (hidle : st.isLoading = false) (hinput : trim inputValue ≠ [])
    (hlo : 200 ≤ status) (hhi : status ≤ 299)
    (hptr : pointerTruthy st.currentChatId = false ∨
      ∃ c ∈ st.chatHistory.take 50, some c.id = st.currentChatId) :
    (sendMessage clk st inputValue (.replied status content detail) writeError).messages =
      st.messages ++ [{ role := roleUser, content := trim inputValue },
                      { role := roleAssistant, content := content }] ++
        writeError.toList.map (fun e => { role := roleAssistant, content := errorPrefix ++ e }) ∧
    (∃ c ∈ (sendMessage clk st inputValue (.replied status content detail) writeError).chatHistory,
      some c.id =
        (sendMessage clk st inputValue (.replied status content detail) writeError).currentChatId ∧
      c.messages = st.messages ++ [{ role := roleUser, content := trim inputValue },
                                   { role := roleAssistant, content := content }] ∧
      c.updatedAt = clk.updatedIso) ∧
    (sendMessage clk st inputValue (.replied status content detail) writeError).isLoading = false ∧
    (writeError = none →
      (sendMessage clk st inputValue (.replied status content detail) writeError).messages =
        st.messages ++ [{ role := roleUser, content := trim inputValue },
                        { role := roleAssistant, content := content }] ∧
      ∃ c ∈ (sendMessage clk st inputValue (.replied status content detail) writeError).chatHistory,
        some c.id =
          (sendMessage clk st inputValue (.replied status content detail) writeError).currentChatId ∧
        c.messages =
          (sendMessage clk st inputValue (.replied status content detail) writeError).messages ∧
        c.updatedAt = clk.updatedIso) := by
  have hok : responseOk status = true := by simp [responseOk, hlo, hhi]
  have hne : (st.messages ++ [{ role := roleUser, content := trim inputValue }]) ++
      [({ role := roleAssistant, content := content } : Message)] ≠ [] := by simp
  obtain ⟨c, hc, hcid, hcm, -, hcu⟩ := saveCurrentChat_finds clk
    { st with
      messages := (st.messages ++ [{ role := roleUser, content := trim inputValue }]) ++
        [{ role := roleAssistant, content := content }],
      isLoading := true } hne hptr
  have hcm2 : c.messages = st.messages ++ [{ role := roleUser, content := trim inputValue },
      { role := roleAssistant, content := content }] := by
    rw [hcm]
    simp
  rw [sendMessage_accepted clk st inputValue _ writeError hinput hidle,
    sendMessageFinish_ok clk _ status content detail writeError hok]
  refine ⟨?_, ⟨c, hc, hcid, hcm2, hcu⟩, rfl, ?_⟩
  · simp
  · intro hnone
    subst hnone
    refine ⟨?_, c, hc, hcid, ?_, hcu⟩
    · simp
    · rw [hcm2]
      simp

/-- C4 (amended), at a concrete input: the first send of a new chat, with a
storage write that succeeds. -/
theorem sendMessage_success_witness :
    (sendMessage sampleClock (initial [olderChat]) (units " hi ") helloReply none).messages =
      [hiMessage, { role := roleAssistant, content := units "hello" }] ∧
    (sendMessage sampleClock (initial [olderChat]) (units " hi ") helloReply none).isLoading
      = false :=
  have h := sendMessage_success sampleClock (initial [olderChat]) (units " hi ") 200
    (units "hello") none none rfl (by decide) (by decide) (by decide) (Or.inl rfl)
  ⟨(h.2.2.2 rfl).1, h.2.2.1⟩

/-! ## A quota answer -/

/-- C5: when a send is accepted and the backend answers 429, after the
exchange run as one step the message list is the old one followed by the user
message alone, the collection and the pointer are unchanged, and `isLoading`
is false. -/
theorem sendMessage_quota (clk : Clock) (st : State) (inputValue : JSString)
    (content : JSString) (detail : Option JSString) (writeError : Option JSString)
    (hidle : st.isLoading = false) (hinput : trim inputValue ≠ []) :
    (sendMessage clk st inputValue (.replied 429 content detail) writeError).messages =
      st.messages ++ [{ role := roleUser, content := trim inputValue }] ∧
    (sendMessage clk st inputValue (.replied 429 content detail) writeError).chatHistory
      = st.chatHistory ∧
    (sendMessage clk st inputValue (.replied 429 content detail) writeError).currentChatId
      = st.currentChatId ∧
    (sendMessage clk st inputValue (.replied 429 content detail) writeError).isLoading
      = false := by
  rw [sendMessage_accepted clk st inputValue _ writeError hinput hidle]
  have hok : responseOk 429 = false := by decide
  simp [sendMessageFinish, hok]

/-- C5, at a concrete input: `test` is sent from a new chat and refused. -/
theorem sendMessage_quota_witness :
    (sendMessage sampleClock (initial []) (units "test")
      (.replied 429 (units "") (some (units "Daily limit reached"))) none).messages =
      [{ role := roleUser, content := units "test" }] :=
  (sendMessage_quota sampleClock (initial []) (units "test") (units "")
    (some (units "Daily limit reached")) none rfl (by decide)).1

/-! ## The guard of `sendMessage` -/

/-- C6: `sendMessage` pushes a user message and sends a request exactly when
the trimmed input is not empty and `isLoading` is false. Then the message list
is the old one followed by the one message `user` with the trimmed input, the
request carries that list, `isLoading` is true and nothing else changes;
otherwise the state is unchanged and no request is sent, and the whole
function leaves the state as it was. -/
theorem sendMessageStart_guard (st : State) (inputValue : JSString) :
    ((sendMessageStart st inputValue).2.isSome = true ↔
      (trim inputValue ≠ [] ∧ st.isLoading = false)) ∧
    ((sendMessageStart st inputValue).1.messages =
        st.messages ++ [{ role := roleUser, content := trim inputValue }] ↔
      (trim inputValue ≠ [] ∧ st.isLoading = false)) ∧
    ((trim inputValue ≠ [] ∧ st.isLoading = false) →
      sendMessageStart st inputValue =
        ({ st with messages := st.messages ++ [{ role := roleUser, content := trim inputValue }],
                   isLoading := true },
         some { messages := st.messages ++ [{ role := roleUser, content := trim inputValue }] })) ∧
    (¬ (trim inputValue ≠ [] ∧ st.isLoading = false) →
      sendMessageStart st inputValue = (st, none) ∧
      ∀ clk outcome writeError, sendMessage clk st inputValue outcome writeError = st) := by
  by_cases h : trim inputValue ≠ [] ∧ st.isLoading = false
  · have hs := sendMessageStart_accepted st inputValue h.1 h.2
    refine ⟨?_, ?_, fun _ => hs, fun hn => absurd h hn⟩
    · rw [hs]
      simp [h]
    · rw [hs]
      simp [h]
  · have hs := sendMessageStart_rejected st inputValue h
    refine ⟨?_, ?_, fun hy => absurd hy h, fun _ => ⟨hs, ?_⟩⟩
    · rw [hs]
      simp [h]
    · rw [hs]
      constructor
      · intro heq
        have hlen := congrArg List.length heq
        simp at hlen
      · intro hy
        exact absurd hy h
    · intro clk outcome writeError
      simp [sendMessage, hs]

/-- C6, at concrete inputs: `hi` is accepted when idle, and refused while a
request is in flight; a blank input is refused. -/
theorem sendMessageStart_guard_witness :
    (sendMessageStart (initial []) (units " hi ")).1.messages = [hiMessage] ∧
    (sendMessageStart (initial []) (units " hi ")).1.isLoading = true ∧
    sendMessageStart { initial [] with isLoading := true } (units "hi") =
      ({ initial [] with isLoading := true }, none) ∧
    sendMessageStart (initial []) (units " \n ") = (initial [], none) :=
  ⟨congrArg (fun r => r.1.messages)
      ((sendMessageStart_guard (initial []) (units " hi ")).2.2.1 (by decide)),
   congrArg (fun r => r.1.isLoading)
      ((sendMessageStart_guard (initial []) (units " hi ")).2.2.1 (by decide)),
   ((sendMessageStart_guard { initial [] with isLoading := true } (units "hi")).2.2.2
      (by decide)).1,
   ((sendMessageStart_guard (initial []) (units " \n ")).2.2.2 (by decide)).1⟩

/-! ## The title of a saved session -/

/-- C7 (as stated, refuted): the first user message of the list has empty
content; the session that `saveCurrentChat` creates is titled with the
placeholder, not with the (empty) first 30 code units of that content. -/
theorem saveCurrentChat_title_of_empty_content :
    emptyUserState.messages ≠ [] ∧
    (emptyUserState.messages.find? (fun m => decide (m.role = roleUser))).map
      (fun m => m.content.take 30) = some [] ∧
    (saveCurrentChat sampleClock emptyUserState).chatHistory.map (fun c => c.title) =
      [defaultTitle] ∧
    defaultTitle ≠ [] := by
  decide

/-- C7 (amended): on a non-empty message list, every session of the collection
after `saveCurrentChat` is an old one or carries the saved messages and the
derived title; a created session stands first; a session is written whenever
the pointer is falsy or names one of the first 50 sessions. The derived title
is the first 30 code units of the content of the first message with role
`user` when these are not empty, and the placeholder when they are empty or
when no message has role `user`. -/
theorem saveCurrentChat_title (clk : Clock) (st : State) (hmsg : st.messages ≠ []) :
    (∀ c ∈ (saveCurrentChat clk st).chatHistory,
      c ∈ st.chatHistory ∨ (c.messages = st.messages ∧ c.title = chatTitle st.messages)) ∧
    (pointerTruthy st.currentChatId = false →
      ∃ created, (saveCurrentChat clk st).chatHistory.head? = some created ∧
        some created.id = (saveCurrentChat clk st).currentChatId ∧
        created.messages = st.messages ∧ created.title = chatTitle st.messages) ∧
    ((pointerTruthy st.currentChatId = false ∨
        ∃ c ∈ st.chatHistory.take 50, some c.id = st.currentChatId) →
      ∃ c ∈ (saveCurrentChat clk st).chatHistory,
        some c.id = (saveCurrentChat clk st).currentChatId ∧
        c.messages = st.messages ∧ c.title = chatTitle st.messages) ∧
    (∀ pre m post, st.messages = pre ++ m :: post → (∀ x ∈ pre, x.role ≠ roleUser) →
      m.role = roleUser →
      chatTitle st.messages =
        if m.content.take 30 = [] then defaultTitle else m.content.take 30) ∧
    ((∀ x ∈ st.messages, x.role ≠ roleUser) → chatTitle st.messages = defaultTitle) := by
  have hid := saveCurrentChat_currentChatId clk st hmsg
  have hhist := saveCurrentChat_chatHistory clk st hmsg
  refine ⟨?_, ?_, ?_, ?_, chatTitle_of_no_user st.messages⟩
  · intro c hc
    rw [hhist] at hc
    have hc2 := List.mem_of_mem_take hc
    by_cases hp : pointerTruthy st.currentChatId = true
    · rw [upsertCurrentChat_of_truthy clk st hp] at hc2
      rcases mem_updateFirst _ _ _ c hc2 with h | ⟨d, -, -, hcd⟩
      · exact Or.inl h
      · subst hcd
        exact Or.inr ⟨rfl, rfl⟩
    · have hp2 : pointerTruthy st.currentChatId = false := by simpa using hp
      rw [upsertCurrentChat_of_falsy clk st hp2] at hc2
      rcases List.mem_cons.mp hc2 with h | h
      · subst h
        exact Or.inr ⟨rfl, rfl⟩
      · exact Or.inl h
  · intro hp
    rw [upsertCurrentChat_of_falsy clk st hp] at hid hhist
    exact ⟨_, by rw [hhist]; rfl, by rw [hid], rfl, rfl⟩
  · intro hptr
    obtain ⟨c, hc, hcid, hcm, hct, -⟩ := saveCurrentChat_finds clk st hmsg hptr
    exact ⟨c, hc, hcid, hcm, hct⟩
  · intro pre m post heq hpre hm
    rw [heq]
    exact chatTitle_of_first_user pre post m hpre hm

/-- C7 (amended), at a concrete input: `Hello` is sent from a new chat with an
empty collection and answered; the collection is then one session titled
`Hello`. -/
theorem saveCurrentChat_title_witness :
    (sendMessage sampleClock (initial []) (units "Hello") helloReply none).chatHistory.map
      (fun c => c.title) = [units "Hello"] ∧
    chatTitle [{ role := roleUser, content := units "Hello" },
               { role := roleAssistant, content := units "hello" }] = units "Hello" :=
  ⟨by decide,
   ((saveCurrentChat_title sampleClock
      { initial [] with
        messages := [{ role := roleUser, content := units "Hello" },
                     { role := roleAssistant, content := units "hello" }] }
      (by decide)).2.2.2.1 [] { role := roleUser, content := units "Hello" }
      [{ role := roleAssistant, content := units "hello" }] rfl (by simp) rfl).trans
     (by decide)⟩

/-! ## Deleting a chat -/

/-- C8: after a confirmed `deleteChat chatId` no session of the collection has
that id; the collection is the old one without the sessions of that id, so
every other session is kept, unchanged and in the same relative order; when
`chatId` was the pointer, the pointer is `null` and the message list empty,
otherwise both are unchanged. -/
theorem deleteChat_confirmed (st : State) (chatId : JSString) :
    (∀ c ∈ (deleteChat st chatId true).chatHistory, c.id ≠ chatId) ∧
    (deleteChat st chatId true).chatHistory =
      st.chatHistory.filter (fun c => decide (c.id ≠ chatId)) ∧
    (∀ c ∈ st.chatHistory, c.id ≠ chatId → c ∈ (deleteChat st chatId true).chatHistory) ∧
    List.Sublist (deleteChat st chatId true).chatHistory st.chatHistory ∧
    (st.currentChatId = some chatId →
      (deleteChat st chatId true).currentChatId = none ∧
      (deleteChat st chatId true).messages = []) ∧
    (st.currentChatId ≠ some chatId →
      (deleteChat st chatId true).currentChatId = st.currentChatId ∧
      (deleteChat st chatId true).messages = st.messages) := by
  have hhist : (deleteChat st chatId true).chatHistory =
      st.chatHistory.filter (fun c => decide (c.id ≠ chatId)) := by
    by_cases h : st.currentChatId = some chatId <;> simp [deleteChat, newChat, h]
  refine ⟨?_, hhist, ?_, ?_, ?_, ?_⟩
  · intro c hc
    rw [hhist] at hc
    exact of_decide_eq_true (List.mem_filter.mp hc).2
  · intro c hc hne
    rw [hhist]
    exact List.mem_filter.mpr ⟨hc, decide_eq_true hne⟩
  · rw [hhist]
    exact List.filter_sublist _
  · intro h
    simp [deleteChat, newChat, h]
  · intro h
    simp [deleteChat, h]

/-- C8, at a concrete input: the open chat, second of two, is deleted. -/
theorem deleteChat_confirmed_witness :
    (deleteChat secondOpenState olderChat.id true).chatHistory = [sameMsChat] ∧
    (deleteChat secondOpenState olderChat.id true).currentChatId = none ∧
    (deleteChat secondOpenState olderChat.id true).messages = [] :=
  ⟨(deleteChat_confirmed secondOpenState olderChat.id).2.1.trans (by decide),
   (deleteChat_confirmed secondOpenState olderChat.id).2.2.2.2.1 rfl⟩

/-! ## A reply that arrives after the user moved to another chat -/

/-- C9 (the code at the failing input): `hi` is sent from the older chat, the
other chat is opened while the request is in flight, and the reply arrives.
The request carried the older chat's messages and `hi`; the reply is pushed
onto the messages of the other chat, which is the session then rewritten,
while the older chat, active when the send began, keeps its stored messages
and never receives `hi`. -/
theorem reply_lands_in_other_chat :
    (sendMessageStart (loadChat (initial [sameMsChat, olderChat]) olderChat.id) (units "hi")).2 =
      some { messages := olderChat.messages ++ [hiMessage] } ∧
    (run (initial [sameMsChat, olderChat]) raceEvents).messages =
      sameMsChat.messages ++ [{ role := roleAssistant, content := units "hello" }] ∧
    (run (initial [sameMsChat, olderChat]) raceEvents).messages ≠
      olderChat.messages ++ [hiMessage, { role := roleAssistant, content := units "hello" }] ∧
    (run (initial [sameMsChat, olderChat]) raceEvents).currentChatId = some sameMsChat.id ∧
    (run (initial [sameMsChat, olderChat]) raceEvents).chatHistory =
      [{ sameMsChat with
          messages := sameMsChat.messages ++ [{ role := roleAssistant, content := units "hello" }],
          updatedAt := sampleClock.updatedIso },
       olderChat] := by
  decide

/-! ## The pointer names a stored session -/

theorem pointerValid_of_null (st : State) (hnull : st.currentChatId = none)
    (hlen : st.chatHistory.length ≤ 50) : PointerValid st :=
  ⟨hlen, Or.inl hnull⟩

theorem pointerValid_saveCurrentChat (clk : Clock) (st : State) (h : PointerValid st) :
    PointerValid (saveCurrentChat clk st) := by
  by_cases hmsg : st.messages = []
  · have hst : saveCurrentChat clk st = st := by simp [saveCurrentChat, hmsg]
    rw [hst]
    exact h
  · have hptr : pointerTruthy st.currentChatId = false ∨
        ∃ c ∈ st.chatHistory.take 50, some c.id = st.currentChatId := by
      rcases h.2 with hnone | hex
      · left
        rw [hnone]
        rfl
      · right
        rw [List.take_of_length_le h.1]
        exact hex
    obtain ⟨c, hc, hcid, -⟩ := saveCurrentChat_finds clk st hmsg hptr
    refine ⟨?_, Or.inr ⟨c, hc, hcid⟩⟩
    rw [saveCurrentChat_chatHistory clk st hmsg, List.length_take]
    exact Nat.min_le_left _ _

theorem pointerValid_of_eq (st st2 : State) (h : PointerValid st)
    (hh : st2.chatHistory = st.chatHistory) (hp : st2.currentChatId = st.currentChatId) :
    PointerValid st2 := by
  unfold PointerValid
  rw [hh, hp]
  exact h

theorem pointerValid_loadChat (st : State) (chatId : JSString) (h : PointerValid st) :
    PointerValid (loadChat st chatId) := by
  unfold loadChat
  split
  · exact h
  · rename_i chat hfind
    refine ⟨h.1, Or.inr ⟨chat, List.mem_of_find?_eq_some hfind, ?_⟩⟩
    have hid := List.find?_some hfind
    simp only [decide_eq_true_eq] at hid
    simp [hid]

theorem pointerValid_deleteChat (st : State) (chatId : JSString) (confirmed : Bool)
    (h : PointerValid st) : PointerValid (deleteChat st chatId confirmed) := by
  cases confirmed with
  | false => exact h
  | true =>
    have hlen : (st.chatHistory.filter (fun c => decide (c.id ≠ chatId))).length ≤ 50 :=
      Nat.le_trans (List.length_filter_le _ _) h.1
    by_cases hcur : st.currentChatId = some chatId
    · refine ⟨?_, Or.inl ?_⟩
      · simpa [deleteChat, newChat, hcur] using hlen
      · simp [deleteChat, newChat, hcur]
    · refine ⟨?_, ?_⟩
      · simpa [deleteChat, hcur] using hlen
      · rcases h.2 with hnone | ⟨c, hc, hcid⟩
        · left
          simp [deleteChat, hcur, hnone]
        · right
          refine ⟨c, ?_, ?_⟩
          · have hne : c.id ≠ chatId := by
              intro heq
              apply hcur
              rw [← hcid, heq]
            simpa [deleteChat, hcur] using And.intro hc hne
          · simpa [deleteChat, hcur] using hcid

theorem pointerValid_sendMessageFinish (clk : Clock) (st : State) (outcome : FetchOutcome)
    (writeError : Option JSString) (h : PointerValid st) :
    PointerValid (sendMessageFinish clk st outcome writeError) := by
  cases outcome with
  | threw errorMessage => exact pointerValid_of_eq st _ h rfl rfl
  | replied status content detail =>
    by_cases hok : responseOk status = true
    · rw [sendMessageFinish_ok clk st status content detail writeError hok]
      exact pointerValid_of_eq _ _
        (pointerValid_saveCurrentChat clk _ (pointerValid_of_eq st
          { st with messages := st.messages ++ [{ role := roleAssistant, content := content }] }
          h rfl rfl))
        rfl rfl
    · by_cases hq : status = 429
      · subst hq
        have hfin : sendMessageFinish clk st (.replied 429 content detail) writeError =
            { st with showSettings := true, isLoading := false } := by
          have hok2 : responseOk 429 = false := by decide
          simp [sendMessageFinish, hok2]
        rw [hfin]
        exact pointerValid_of_eq st _ h rfl rfl
      · have hfin : sendMessageFinish clk st (.replied status content detail) writeError =
            { st with
              messages := st.messages ++
                [{ role := roleAssistant, content := errorPrefix ++ detailOrUnknown detail }],
              isLoading := false } := by
          simp [sendMessageFinish, hok, hq]
        rw [hfin]
        exact pointerValid_of_eq st _ h rfl rfl

theorem pointerValid_step (st : State) (e : Event) (h : PointerValid st) :
    PointerValid (step st e) := by
  cases e with
  | newChat => exact ⟨h.1, Or.inl rfl⟩
  | loadChat chatId => exact pointerValid_loadChat st chatId h
  | deleteChat chatId confirmed => exact pointerValid_deleteChat st chatId confirmed h
  | saveCurrentChat clk => exact pointerValid_saveCurrentChat clk st h
  | sendStart inputValue =>
    refine pointerValid_of_eq st _ h ?_ ?_
    · simp only [step, sendMessageStart]
      split <;> rfl
    · simp only [step, sendMessageStart]
      split <;> rfl
  | sendFinish clk outcome writeError =>
    exact pointerValid_sendMessageFinish clk st outcome writeError h

theorem pointerValid_run (events : List Event) (st : State) (h : PointerValid st) :
    PointerValid (run st events) := by
  induction events generalizing st with
  | nil => exact h
  | cons e es ih => exact ih (step st e) (pointerValid_step st e h)

/-- C10: from any state whose collection has at most 50 sessions and whose
pointer is `null`, after any sequence of `newChat`, `loadChat`, `deleteChat`,
`saveCurrentChat` (and of starts and outcomes of `sendMessage`) the pointer is
`null` or the id of a session of the collection, which has at most 50
sessions; and a `saveCurrentChat` on a non-empty message list there leaves a
session that the pointer names and that holds those messages: the list is
never discarded. -/
theorem pointer_names_stored_session (st : State) (events : List Event)
    (hnull : st.currentChatId = none) (hlen : st.chatHistory.length ≤ 50) :
    ((run st events).currentChatId = none ∨
      ∃ c ∈ (run st events).chatHistory, some c.id = (run st events).currentChatId) ∧
    (run st events).chatHistory.length ≤ 50 ∧
    ∀ clk, (run st events).messages ≠ [] →
      ∃ c ∈ (saveCurrentChat clk (run st events)).chatHistory,
        some c.id = (saveCurrentChat clk (run st events)).currentChatId ∧
        c.messages = (run st events).messages := by
  have h := pointerValid_run events st (pointerValid_of_null st hnull hlen)
  refine ⟨h.2, h.1, ?_⟩
  intro clk hmsg
  have hptr : pointerTruthy (run st events).currentChatId = false ∨
      ∃ c ∈ (run st events).chatHistory.take 50, some c.id = (run st events).currentChatId := by
    rcases h.2 with hnone | hex
    · left
      rw [hnone]
      rfl
    · right
      rw [List.take_of_length_le h.1]
      exact hex
  obtain ⟨c, hc, hcid, hcm, -⟩ := saveCurrentChat_finds clk _ hmsg hptr
  exact ⟨c, hc, hcid, hcm⟩

/-- C10, at a concrete input: two stored chats, and the events of a send that
is answered after the user opened another chat. -/
theorem pointer_names_stored_session_witness :
    ((run (initial [sameMsChat, olderChat]) raceEvents).currentChatId = none ∨
      ∃ c ∈ (run (initial [sameMsChat, olderChat]) raceEvents).chatHistory,
        some c.id = (run (initial [sameMsChat, olderChat]) raceEvents).currentChatId) ∧
    (run (initial [sameMsChat, olderChat]) raceEvents).chatHistory.length ≤ 50 :=
  ⟨(pointer_names_stored_session (initial [sameMsChat, olderChat]) raceEvents rfl
      (by decide)).1,
   (pointer_names_stored_session (initial [sameMsChat, olderChat]) raceEvents rfl
      (by decide)).2.1⟩

end OpenChatBox
